import Mathlib

/-!
A shallow embedding of `src/Backend/src/main.py`, a FastAPI OAuth2 backend:
password-based login issuing signed bearer tokens, token-validated identity
resolution, user registration against a uniquely-indexed credential store,
and a simple posts feed.

Conventions:
- Time is a natural number of minutes (the source works in `timedelta(minutes=...)`).
- The MongoDB `users` collection is a `List UserInDB`; `find_one` is the first
  match in list order; stateful operations return the updated list.
- External library collaborators whose code is not in the repository
  (python-jose `jwt.encode`/`jwt.decode`, MongoDB unique-index `insert_one`)
  are modelled from the spec's contracts; each such definition carries a
  `Modelled from the spec` doc comment.
- Python's falsy returns (`None` from `get_user`, `False` from
  `authenticate_user`) are both modelled as `none`, matching the only
  observation the callers make (`if not user`).
- `passlib`'s `CryptContext` is injected as function parameters
  (`verify_password`, `get_password_hash`), since its behavior is decided by
  library code outside the repository.
-/

namespace OAuthBackend

/-- Configuration constant `SECRET_KEY` (src line 19, the default taken when the
environment variable is unset). -/
def SECRET_KEY : String := "your-secret-key-here"

/-- Configuration constant `ALGORITHM` (src line 20). -/
def ALGORITHM : String := "HS256"

/-- Configuration constant `ACCESS_TOKEN_EXPIRE_MINUTES` (src line 21). -/
def ACCESS_TOKEN_EXPIRE_MINUTES : Nat := 30

/-- The `UserInDB` pydantic model (src lines 39-41): a stored credential record. -/
structure UserInDB where
  username : String
  email : String
  full_name : Option String
  hashed_password : String
  disabled : Bool
deriving DecidableEq

/-- The `UserCreate` pydantic model (src lines 36-37): a registration request. -/
structure UserCreate where
  username : String
  email : String
  full_name : Option String
  password : String
deriving DecidableEq

/-- The `UserOut` pydantic model (src lines 43-44): the response shape of
registration and the current-user endpoints; it has no password-hash field. -/
structure UserOut where
  username : String
  email : String
  full_name : Option String
  disabled : Bool
deriving DecidableEq

/-- An `HTTPException` as raised by the handlers: status code, detail message
and response headers. -/
structure HTTPException where
  status_code : Nat
  detail : String
  headers : List (String × String)
deriving DecidableEq

/-- The JWT claims this application uses: the `sub` claim (set from the `data`
dict passed to `create_access_token`, which at every call site is
`{"sub": username}`) and the `exp` claim added by `create_access_token`. -/
structure Claims where
  sub : Option String
  exp : Nat
deriving DecidableEq

/-- Modelled from the spec: the wire token produced by `jose.jwt.encode`
(library code not in the repository). Per the spec's token wire format, it
carries the claims, is signed with a secret, and declares its algorithm;
tampering with any part invalidates the signature, so the token is modelled
transparently as the triple itself. -/
structure Jwt where
  claims : Claims
  secret : String
  alg : String
deriving DecidableEq

/-- Modelled from the spec: `jose.jwt.encode(to_encode, SECRET_KEY, algorithm=ALGORITHM)`. -/
def jwtEncode (claims : Claims) (secret : String) (alg : String) : Jwt :=
  ⟨claims, secret, alg⟩

/-- The failure cases of token decoding, all raised as `JWTError` by the jose
library and collapsed by `get_current_user`. -/
inductive JWTError where
  | invalidSignature
  | invalidAlgorithm
  | expiredSignature
deriving DecidableEq

/-- Modelled from the spec: `jose.jwt.decode(token, SECRET_KEY, algorithms=[ALGORITHM])`
(library code not in the repository). Per spec section 4.2 it verifies the
signature against the secret, verifies the algorithm matches an expected one,
and verifies current time < expiry; on any failure it raises a `JWTError`. -/
def jwtDecode (t : Jwt) (secret : String) (algorithms : List String) (now : Nat) :
    Except JWTError Claims :=
  if t.secret = secret then
    if algorithms.contains t.alg then
      if now < t.claims.exp then
        .ok t.claims
      else
        .error .expiredSignature
    else
      .error .invalidAlgorithm
  else
    .error .invalidSignature

/-- `get_user` (src lines 87-90): `users_collection.find_one({"username": username})`,
wrapped into `UserInDB`; `None` when absent. -/
def get_user (users_collection : List UserInDB) (username : String) : Option UserInDB :=
  users_collection.find? (fun u => u.username == username)

/-- `authenticate_user` (src lines 92-98). The Python returns `False` when the
user is absent or the password fails verification, and the record on success;
both falsy failure results are modelled as `none`. -/
def authenticate_user (verify_password : String → String → Bool)
    (users_collection : List UserInDB) (username password : String) :
    Option UserInDB :=
  match get_user users_collection username with
  | none => none
  | some user =>
    if verify_password password user.hashed_password then some user else none

/-- `create_access_token` (src lines 100-108). The `data` dict is modelled by
its only used entry, the `sub` claim. `if expires_delta:` is Python truthiness,
so both `None` and a zero delta fall to the 15-minute default. -/
def create_access_token (data_sub : Option String) (expires_delta : Option Nat)
    (now : Nat) : Jwt :=
  let expire :=
    match expires_delta with
    | some d => if d ≠ 0 then now + d else now + 15
    | none => now + 15
  jwtEncode ⟨data_sub, expire⟩ SECRET_KEY ALGORITHM

/-- The `credentials_exception` built in `get_current_user` (src lines 111-115). -/
def credentials_exception : HTTPException :=
  ⟨401, "Could not validate credentials", [("WWW-Authenticate", "Bearer")]⟩

/-- `get_current_user` (src lines 110-127): decode the token, extract the `sub`
claim, look the subject up in the store; every failure raises the same
`credentials_exception`. -/
def get_current_user (users_collection : List UserInDB) (token : Jwt) (now : Nat) :
    Except HTTPException UserInDB :=
  match jwtDecode token SECRET_KEY [ALGORITHM] now with
  | .error _ => .error credentials_exception
  | .ok payload =>
    match payload.sub with
    | none => .error credentials_exception
    | some username =>
      match get_user users_collection username with
      | none => .error credentials_exception
      | some user => .ok user

/-- `get_current_active_user` (src lines 129-132). -/
def get_current_active_user (current_user : UserInDB) : Except HTTPException UserInDB :=
  if current_user.disabled then
    .error ⟨400, "Inactive user", []⟩
  else
    .ok current_user

/-- The `Token` pydantic response model (src lines 46-48). -/
structure Token where
  access_token : Jwt
  token_type : String
deriving DecidableEq

/-- `login_for_access_token` (src lines 157-170): authenticate, then issue a
token with `expires_delta = timedelta(minutes=ACCESS_TOKEN_EXPIRE_MINUTES)`. -/
def login_for_access_token (verify_password : String → String → Bool)
    (users_collection : List UserInDB) (username password : String) (now : Nat) :
    Except HTTPException Token :=
  match authenticate_user verify_password users_collection username password with
  | none =>
    .error ⟨401, "Incorrect username or password", [("WWW-Authenticate", "Bearer")]⟩
  | some user =>
    .ok ⟨create_access_token (some user.username) (some ACCESS_TOKEN_EXPIRE_MINUTES) now,
         "bearer"⟩

/-- The field a MongoDB `DuplicateKeyError` reports for the unique indexes
created by `create_indexes` (src lines 135-137). -/
inductive DupKeyField where
  | username
  | email
deriving DecidableEq

/-- Modelled from the spec: the message carried by the `DuplicateKeyError` that
MongoDB raises when `insert_one` violates one of the unique indexes on
`username` and `email`; the spec's store contract is
`insert(record) -> success | fails(DuplicateField(which))`, so the message
names the colliding field's index. -/
def dupKeyMessage : DupKeyField → String
  | .username => "E11000 duplicate key error collection: oauth_db.users index: username_1"
  | .email => "E11000 duplicate key error collection: oauth_db.users index: email_1"

/-- Modelled from the spec: `users_collection.insert_one` under the unique
indexes declared by `create_indexes` (src lines 135-137): fails with a
`DuplicateKeyError` tagged with the violated field, otherwise appends the
record to the collection. -/
def insert_one (users_collection : List UserInDB) (record : UserInDB) :
    Except DupKeyField (List UserInDB) :=
  if users_collection.any (fun u => u.username == record.username) then
    .error .username
  else if users_collection.any (fun u => u.email == record.email) then
    .error .email
  else
    .ok (users_collection ++ [record])

/-- Substring test on character lists, backing Python's `in` on strings. -/
def listContainsInfix (l pat : List Char) : Bool :=
  match l with
  | [] => pat.isEmpty
  | _ :: t => pat.isPrefixOf l || listContainsInfix t pat

/-- Python's `pat in s` substring test, used by `register_user` on `str(e)`. -/
def strContains (s pat : String) : Bool :=
  listContainsInfix s.toList pat.toList

/-- `register_user` (src lines 172-189): hash the password, build the record
with `disabled = False`, insert it; on `DuplicateKeyError` match the message
text to tag the 400 response; on success return `UserOut(**user_dict)`, which
keeps only `UserOut`'s declared fields (pydantic ignores the extra
`hashed_password` key). Returns the response together with the updated store. -/
def register_user (get_password_hash : String → String)
    (users_collection : List UserInDB) (user : UserCreate) :
    Except HTTPException (UserOut × List UserInDB) :=
  let hashed_password := get_password_hash user.password
  let record : UserInDB := ⟨user.username, user.email, user.full_name, hashed_password, false⟩
  match insert_one users_collection record with
  | .ok updated => .ok (⟨user.username, user.email, user.full_name, false⟩, updated)
  | .error e =>
    if strContains (dupKeyMessage e) "username" then
      .error ⟨400, "Username already registered", []⟩
    else if strContains (dupKeyMessage e) "email" then
      .error ⟨400, "Email already registered", []⟩
    else
      .error ⟨400, "Registration failed", []⟩

/-- The `Post` response model (src lines 61-64); `id` is the stringified
ObjectId, carried here on the stored record. -/
structure Post where
  id : String
  caption : String
  image_url : String
  owner_username : String
  created_at : Nat
deriving DecidableEq

/-- The sort key of `db.posts.find().sort("created_at", -1)`: newest first. -/
def newerFirst (a b : Post) : Prop := b.created_at ≤ a.created_at

instance : DecidableRel newerFirst := fun a b => Nat.decLe b.created_at a.created_at

instance : IsTotal Post newerFirst := ⟨fun a b => Nat.le_total b.created_at a.created_at⟩

instance : IsTrans Post newerFirst := ⟨fun _ _ _ h1 h2 => Nat.le_trans h2 h1⟩

/-- `read_posts` (src lines 217-223):
`db.posts.find().sort("created_at", -1).skip(skip).limit(limit)` — all posts of
all owners sorted newest-first (a stable sort, here insertion sort), paginated.
The endpoint declares no credential dependency, so the embedding takes no token
and cannot fail. -/
def read_posts (posts : List Post) (skip limit : Nat) : List Post :=
  (((posts.insertionSort newerFirst).drop skip).take limit)

/-! Concrete data used by witnesses: the seeded test user, with an injected
demonstration hasher standing in for the externally injected `CryptContext`. -/

/-- Demonstration password hash used to instantiate the injected hasher. -/
def demoHash (plain : String) : String := "hash:" ++ plain

/-- Demonstration password verifier matching `demoHash`. -/
def demoVerify (plain hashed : String) : Bool := hashed == demoHash plain

/-- The seeded `johndoe` test user (src lines 144-150), with a `demoHash`ed password. -/
def johndoeRecord : UserInDB :=
  ⟨"johndoe", "johndoe@example.com", some "John Doe", demoHash "secret", false⟩

/-! Helper lemmas. -/

/-- Decoding a token issued by `create_access_token` with the same secret and
algorithm reduces to the expiry check. -/
theorem jwtDecode_create_access_token (sub : Option String) (ttl now0 now : Nat)
    (hne : ttl ≠ 0) :
    jwtDecode (create_access_token sub (some ttl) now0) SECRET_KEY [ALGORITHM] now =
      if now < now0 + ttl then .ok ⟨sub, now0 + ttl⟩ else .error .expiredSignature := by
  simp [create_access_token, jwtEncode, jwtDecode, hne, List.contains]

/-- C1: Round-trip of the token codec: for every valid subject `u` and every
positive ttl, decoding a token immediately after issuing it with
`create_access_token` on `sub = u` under the same secret and algorithm yields
the subject `u`; consequently `get_current_user` resolves it to the stored
record whenever the subject is in the store. -/
theorem token_roundtrip (u : String) (ttl now : Nat) (h : 0 < ttl) :
    (jwtDecode (create_access_token (some u) (some ttl) now) SECRET_KEY [ALGORITHM] now).map
        Claims.sub = .ok (some u)
    ∧ ∀ (store : List UserInDB) (user : UserInDB), get_user store u = some user →
        get_current_user store (create_access_token (some u) (some ttl) now) now = .ok user := by
  have hne : ttl ≠ 0 := by omega
  have hd := jwtDecode_create_access_token (some u) ttl now now hne
  rw [if_pos (by omega)] at hd
  constructor
  · rw [hd]; rfl
  · intro store user hu
    unfold get_current_user
    rw [hd]
    simp [hu]

/-- Witness for `token_roundtrip` at subject `johndoe`, ttl 30, issuance time 0. -/
theorem token_roundtrip_witness :
    (jwtDecode (create_access_token (some "johndoe") (some 30) 0) SECRET_KEY [ALGORITHM] 0).map
        Claims.sub = .ok (some "johndoe")
    ∧ get_current_user [johndoeRecord] (create_access_token (some "johndoe") (some 30) 0) 0
        = .ok johndoeRecord :=
  ⟨(token_roundtrip "johndoe" 30 0 (by decide)).1,
   (token_roundtrip "johndoe" 30 0 (by decide)).2 [johndoeRecord] johndoeRecord (by decide)⟩

/-- C2: a token issued with expiry `now0 + ttl` is rejected with the 401
`credentials_exception` at every time at or after its expiry instant, for
every store — it is never resolved to an identity once expired. -/
theorem expired_token_rejected (u : String) (ttl now0 now : Nat) (store : List UserInDB)
    (hpos : 0 < ttl) (hexp : now0 + ttl ≤ now) :
    get_current_user store (create_access_token (some u) (some ttl) now0) now
      = .error credentials_exception := by
  have hne : ttl ≠ 0 := by omega
  have hd := jwtDecode_create_access_token (some u) ttl now0 now hne
  rw [if_neg (by omega)] at hd
  unfold get_current_user
  rw [hd]

/-- Witness for `expired_token_rejected`: a 30-minute token issued at time 0 is
rejected at time 30. -/
theorem expired_token_rejected_witness :
    get_current_user [johndoeRecord] (create_access_token (some "johndoe") (some 30) 0) 30
      = .error credentials_exception :=
  expired_token_rejected "johndoe" 30 0 30 [johndoeRecord] (by decide) (by decide)

/-- C3: login failure is indistinguishable between "username absent" and
"username present, wrong password": both runs of `login_for_access_token`
fail with the identical 401 `HTTPException`. -/
theorem login_failure_indistinguishable (verify : String → String → Bool)
    (store : List UserInDB) (u1 p1 u2 p2 : String) (now : Nat) (r : UserInDB)
    (habsent : get_user store u1 = none)
    (hfound : get_user store u2 = some r)
    (hwrong : verify p2 r.hashed_password = false) :
    login_for_access_token verify store u1 p1 now
        = .error ⟨401, "Incorrect username or password", [("WWW-Authenticate", "Bearer")]⟩
    ∧ login_for_access_token verify store u2 p2 now
        = .error ⟨401, "Incorrect username or password", [("WWW-Authenticate", "Bearer")]⟩ := by
  refine ⟨?_, ?_⟩
  · simp [login_for_access_token, authenticate_user, habsent]
  · simp [login_for_access_token, authenticate_user, hfound, hwrong]

/-- Witness for `login_failure_indistinguishable`: `("nouser", anything)` versus
`("johndoe", "wrongpass")` against the seeded store. -/
theorem login_failure_indistinguishable_witness :
    login_for_access_token demoVerify [johndoeRecord] "nouser" "anything" 0
        = .error ⟨401, "Incorrect username or password", [("WWW-Authenticate", "Bearer")]⟩
    ∧ login_for_access_token demoVerify [johndoeRecord] "johndoe" "wrongpass" 0
        = .error ⟨401, "Incorrect username or password", [("WWW-Authenticate", "Bearer")]⟩ :=
  login_failure_indistinguishable demoVerify [johndoeRecord] "nouser" "anything" "johndoe"
    "wrongpass" 0 johndoeRecord (by decide) (by decide) (by decide)

/-- C4 counterexample: a correctly signed, unexpired token for the absent
subject `ghost` and a forged token with a wrong secret fail
`get_current_user` with the *same* 401 `credentials_exception` — the absent-user
failure is not distinguishable from the invalid-token failure. -/
theorem unknown_user_error_equals_invalid_token_error :
    get_current_user [] (create_access_token (some "ghost") (some 30) 0) 1
        = .error credentials_exception
    ∧ get_current_user [] ⟨⟨some "ghost", 31⟩, "attacker-secret", "HS256"⟩ 1
        = .error credentials_exception :=
  ⟨rfl, rfl⟩

/-- C4 (amended): for every structurally valid, correctly signed, unexpired
token whose subject is absent from the store, `get_current_user` fails with
the same 401 `credentials_exception` used for signature/expiry/structure
problems — the code does not give the caller a distinct user-not-found error. -/
theorem unknown_subject_fails_with_credentials_exception (store : List UserInDB)
    (u : String) (ttl now0 now : Nat)
    (hpos : 0 < ttl) (hnow : now < now0 + ttl)
    (habsent : get_user store u = none) :
    get_current_user store (create_access_token (some u) (some ttl) now0) now
      = .error credentials_exception := by
  have hne : ttl ≠ 0 := by omega
  have hd := jwtDecode_create_access_token (some u) ttl now0 now hne
  rw [if_pos hnow] at hd
  unfold get_current_user
  rw [hd]
  simp [habsent]

/-- Witness for `unknown_subject_fails_with_credentials_exception` at subject
`ghost`, ttl 30, decode time 1, empty store. -/
theorem unknown_subject_fails_witness :
    get_current_user [] (create_access_token (some "ghost") (some 30) 0) 1
      = .error credentials_exception :=
  unknown_subject_fails_with_credentials_exception [] "ghost" 30 0 1 (by decide) (by decide)
    (by decide)

/-- C6: ttl policy — a call to `create_access_token` without `expires_delta`
issues a token expiring 15 minutes after issuance, while the login flow always
passes `ACCESS_TOKEN_EXPIRE_MINUTES = 30`, so its tokens expire 30 minutes
after issuance; the two policy values are distinct. -/
theorem ttl_policy_default_15_login_30 (s : Option String) (now : Nat)
    (verify : String → String → Bool) (store : List UserInDB)
    (u p : String) (user : UserInDB) (now2 : Nat)
    (hauth : authenticate_user verify store u p = some user) :
    (create_access_token s none now).claims.exp = now + 15
    ∧ ACCESS_TOKEN_EXPIRE_MINUTES = 30
    ∧ login_for_access_token verify store u p now2
        = .ok ⟨create_access_token (some user.username) (some ACCESS_TOKEN_EXPIRE_MINUTES) now2,
               "bearer"⟩
    ∧ (create_access_token (some user.username) (some ACCESS_TOKEN_EXPIRE_MINUTES) now2).claims.exp
        = now2 + 30
    ∧ ACCESS_TOKEN_EXPIRE_MINUTES ≠ 15 := by
  refine ⟨rfl, rfl, ?_, rfl, by decide⟩
  simp [login_for_access_token, hauth]

/-- Witness for `ttl_policy_default_15_login_30`: the seeded user logging in at
time 0 with the correct password. -/
theorem ttl_policy_witness :
    (create_access_token none none 0).claims.exp = 0 + 15
    ∧ ACCESS_TOKEN_EXPIRE_MINUTES = 30
    ∧ login_for_access_token demoVerify [johndoeRecord] "johndoe" "secret" 0
        = .ok ⟨create_access_token (some johndoeRecord.username)
                 (some ACCESS_TOKEN_EXPIRE_MINUTES) 0, "bearer"⟩
    ∧ (create_access_token (some johndoeRecord.username)
          (some ACCESS_TOKEN_EXPIRE_MINUTES) 0).claims.exp = 0 + 30
    ∧ ACCESS_TOKEN_EXPIRE_MINUTES ≠ 15 :=
  ttl_policy_default_15_login_30 none 0 demoVerify [johndoeRecord] "johndoe" "secret"
    johndoeRecord 0 (by decide)

/-- C7: duplicate registration is rejected with the field-tagged 400 error:
a colliding username yields "Username already registered", and a colliding
email (with a fresh username) yields "Email already registered". -/
theorem duplicate_registration_field_tagged (hash : String → String)
    (store : List UserInDB) (u : UserCreate) :
    ((store.any fun r => r.username == u.username) = true →
      register_user hash store u = .error ⟨400, "Username already registered", []⟩)
    ∧ ((store.any fun r => r.username == u.username) = false →
       (store.any fun r => r.email == u.email) = true →
      register_user hash store u = .error ⟨400, "Email already registered", []⟩) := by
  have hmu : strContains (dupKeyMessage .username) "username" = true := by decide
  have hme1 : strContains (dupKeyMessage .email) "username" = false := by decide
  have hme2 : strContains (dupKeyMessage .email) "email" = true := by decide
  constructor
  · intro hu
    simp [register_user, insert_one, hu, hmu]
  · intro hnu he
    simp [register_user, insert_one, hnu, he, hme1, hme2]

/-- Witness for `duplicate_registration_field_tagged`: re-registering the seeded
user's username, and a fresh username with the seeded user's email. -/
theorem duplicate_registration_witness :
    register_user demoHash [johndoeRecord] ⟨"johndoe", "other@example.com", none, "pw"⟩
        = .error ⟨400, "Username already registered", []⟩
    ∧ register_user demoHash [johndoeRecord] ⟨"newuser", "johndoe@example.com", none, "pw"⟩
        = .error ⟨400, "Email already registered", []⟩ :=
  ⟨(duplicate_registration_field_tagged demoHash [johndoeRecord]
      ⟨"johndoe", "other@example.com", none, "pw"⟩).1 (by decide),
   (duplicate_registration_field_tagged demoHash [johndoeRecord]
      ⟨"newuser", "johndoe@example.com", none, "pw"⟩).2 (by decide) (by decide)⟩

/-- A disabled but otherwise valid seeded account, used by witnesses. -/
def suspendedRecord : UserInDB :=
  ⟨"suspended", "suspended@example.com", none, demoHash "secret", true⟩

/-- C8: a record with `disabled = true` still authenticates with the correct
password and the login endpoint still issues it a bearer token; the disabled
flag is only enforced by `get_current_active_user`, which rejects it with the
400 "Inactive user" error. -/
theorem disabled_user_can_login (verify : String → String → Bool)
    (store : List UserInDB) (username password : String) (user : UserInDB) (now : Nat)
    (hfind : get_user store username = some user)
    (hdis : user.disabled = true)
    (hverify : verify password user.hashed_password = true) :
    authenticate_user verify store username password = some user
    ∧ login_for_access_token verify store username password now
        = .ok ⟨create_access_token (some user.username) (some ACCESS_TOKEN_EXPIRE_MINUTES) now,
               "bearer"⟩
    ∧ get_current_active_user user = .error ⟨400, "Inactive user", []⟩ := by
  have ha : authenticate_user verify store username password = some user := by
    simp [authenticate_user, hfind, hverify]
  refine ⟨ha, ?_, ?_⟩
  · simp [login_for_access_token, ha]
  · simp [get_current_active_user, hdis]

/-- Witness for `disabled_user_can_login`: the suspended account logging in with
its correct password at time 0. -/
theorem disabled_user_can_login_witness :
    authenticate_user demoVerify [suspendedRecord] "suspended" "secret" = some suspendedRecord
    ∧ login_for_access_token demoVerify [suspendedRecord] "suspended" "secret" 0
        = .ok ⟨create_access_token (some suspendedRecord.username)
                 (some ACCESS_TOKEN_EXPIRE_MINUTES) 0, "bearer"⟩
    ∧ get_current_active_user suspendedRecord = .error ⟨400, "Inactive user", []⟩ :=
  disabled_user_can_login demoVerify [suspendedRecord] "suspended" "secret" suspendedRecord 0
    (by decide) (by decide) (by decide)

/-- A successful `insert_one` appends the record to the collection. -/
theorem insert_one_ok (store : List UserInDB) (record : UserInDB) (l : List UserInDB)
    (h : insert_one store record = .ok l) : l = store ++ [record] := by
  unfold insert_one at h
  split at h
  · exact Except.noConfusion h
  · split at h
    · exact Except.noConfusion h
    · injection h with h2
      exact h2.symm

/-- C9: every successful registration persists a record with `disabled = false`
and answers with a `UserOut` made of exactly the request's username, email and
full name plus `disabled = false` — the response carries no password hash
(`UserOut` has no such field) and registration can never create an
already-disabled account. -/
theorem register_success_disabled_false (hash : String → String)
    (store : List UserInDB) (u : UserCreate) (out : UserOut) (updated : List UserInDB)
    (hok : register_user hash store u = .ok (out, updated)) :
    out = ⟨u.username, u.email, u.full_name, false⟩
    ∧ updated = store ++ [⟨u.username, u.email, u.full_name, hash u.password, false⟩]
    ∧ (⟨u.username, u.email, u.full_name, hash u.password, false⟩ : UserInDB).disabled = false
    ∧ out.disabled = false := by
  unfold register_user at hok
  simp only at hok
  split at hok
  case h_1 updated2 heq =>
    simp only [Except.ok.injEq, Prod.mk.injEq] at hok
    obtain ⟨ho, hupd⟩ := hok
    subst ho
    subst hupd
    exact ⟨rfl, insert_one_ok store _ updated2 heq, rfl, rfl⟩
  case h_2 e heq =>
    exfalso
    split at hok
    · exact Except.noConfusion hok
    · split at hok
      · exact Except.noConfusion hok
      · exact Except.noConfusion hok

/-- Witness for `register_success_disabled_false`: a fresh registration into the
empty store. -/
theorem register_success_witness :
    (⟨"newuser", "new@example.com", none, false⟩ : UserOut)
        = ⟨"newuser", "new@example.com", none, false⟩
    ∧ ([⟨"newuser", "new@example.com", none, demoHash "pw", false⟩] : List UserInDB)
        = [] ++ [⟨"newuser", "new@example.com", none, demoHash "pw", false⟩]
    ∧ (⟨"newuser", "new@example.com", none, demoHash "pw", false⟩ : UserInDB).disabled = false
    ∧ (⟨"newuser", "new@example.com", none, false⟩ : UserOut).disabled = false :=
  register_success_disabled_false demoHash [] ⟨"newuser", "new@example.com", none, "pw"⟩
    ⟨"newuser", "new@example.com", none, false⟩
    [⟨"newuser", "new@example.com", none, demoHash "pw", false⟩] rfl

/-- C10: `read_posts` performs no token validation (its embedding takes no
credential and always returns a plain list): it returns at most `limit` posts,
sorted by `created_at` descending, all drawn from the full posts collection
regardless of owner. -/
theorem read_posts_public_sorted_limited (posts : List Post) (skip limit : Nat) :
    (read_posts posts skip limit).length ≤ limit
    ∧ List.Pairwise (fun a b => b.created_at ≤ a.created_at) (read_posts posts skip limit)
    ∧ ∀ p, p ∈ read_posts posts skip limit → p ∈ posts := by
  unfold read_posts
  have hsub : List.Sublist (((posts.insertionSort newerFirst).drop skip).take limit)
      (posts.insertionSort newerFirst) :=
    (List.take_sublist _ _).trans (List.drop_sublist _ _)
  refine ⟨?_, ?_, ?_⟩
  · rw [List.length_take]
    exact Nat.min_le_left _ _
  · exact List.Pairwise.sublist hsub (List.sorted_insertionSort newerFirst posts)
  · intro p hp
    exact (List.perm_insertionSort newerFirst posts).mem_iff.mp (hsub.subset hp)

/-- Two sample posts by different owners, used by witnesses. -/
def postA : Post := ⟨"1", "first", "img/1", "johndoe", 5⟩

/-- Second sample post, newer than `postA`. -/
def postB : Post := ⟨"2", "second", "img/2", "alice", 9⟩

/-- Witness for `read_posts_public_sorted_limited` on a two-post collection. -/
theorem read_posts_witness :
    (read_posts [postA, postB] 0 10).length ≤ 10
    ∧ List.Pairwise (fun a b => b.created_at ≤ a.created_at) (read_posts [postA, postB] 0 10)
    ∧ postB ∈ ([postA, postB] : List Post) :=
  ⟨(read_posts_public_sorted_limited [postA, postB] 0 10).1,
   (read_posts_public_sorted_limited [postA, postB] 0 10).2.1,
   (read_posts_public_sorted_limited [postA, postB] 0 10).2.2 postB (by decide)⟩

end OAuthBackend
